import Mathlib

/-!
Verification of `src/r1portvlan.py` (bulk AP port VLAN configuration script).

The script is shallowly embedded: Python strings are Lean `String`s, the
`csv.DictReader` row (whose values may be `None` for short rows) becomes a
record of `Option String` fields, HTTP traffic is represented by explicit
request/response values, and `main`'s control flow becomes a pure function
from an abstract `World` (CLI arity, credentials file contents, prompt input,
HTTP responses, CSV file contents) to the observable outcome (exit code,
whether the auth call and the CSV open happened, and the per-row events).
-/

/-! ## Python string helpers

`str.strip` / `str.lstrip` with no argument strip Python whitespace;
this model covers the ASCII whitespace characters. -/

def isPySpace (c : Char) : Bool :=
  c == ' ' || c == '\t' || c == '\n' || c == '\r' || c == '\x0b' || c == '\x0c'

/-- Model of Python `str.strip()`: drop whitespace from both ends. -/
def pyStrip (s : String) : String :=
  String.mk (((s.data.dropWhile isPySpace).reverse.dropWhile isPySpace).reverse)

/-- A line whose left-stripped text starts with `'#'`
(the test `line.lstrip().startswith('#')` on line 91 of the source). -/
def isCommentLine (l : String) : Bool :=
  match l.data.dropWhile isPySpace with
  | [] => false
  | c :: _ => c == '#'

/-! ## Python `int()` on strings

`int(s)` strips whitespace, accepts an optional sign, then decimal digits
with single underscores allowed between digits; anything else raises
`ValueError` (modelled as `none`). ASCII digits are covered. -/

def pyDigitsGo : Nat → List Char → Option Nat
  | acc, [] => some acc
  | acc, c :: cs =>
    if c.isDigit then pyDigitsGo (10 * acc + (c.toNat - 48)) cs
    else if c == '_' then
      match cs with
      | [] => none
      | d :: cs2 =>
        if d.isDigit then pyDigitsGo (10 * acc + (d.toNat - 48)) cs2 else none
    else none

def pyDigits : List Char → Option Nat
  | [] => none
  | c :: cs => if c.isDigit then pyDigitsGo (c.toNat - 48) cs else none

/-- Model of Python `int(s)` for `s : String`: `some n` on success,
`none` when `int` raises `ValueError`. -/
def pyParseInt (s : String) : Option Int :=
  match (pyStrip s).data with
  | '+' :: rest => (pyDigits rest).map Int.ofNat
  | '-' :: rest => (pyDigits rest).map (fun n => -(Int.ofNat n))
  | l => (pyDigits l).map Int.ofNat

/-! ## skip_comments (source lines 85-94)

The generator drops the leading run of comment lines, yields the first
non-comment line, then yields the remaining lines unchanged. -/

def skipComments : List String → List String
  | [] => []
  | l :: rest => if isCommentLine l then skipComments rest else l :: rest

/-! ## CSV reading (csv.DictReader with fixed fieldnames)

A physical line is stripped of its end-of-line, a blank line yields the
empty row (which `DictReader` skips), and other lines split on commas.
A row shorter than the four field names leaves the missing fields `None`
(`restval`), modelled by `Option String`. Quoted fields are not used by
this tool's inputs and are outside the model. -/

def dropEol (cs : List Char) : List Char :=
  match cs.reverse with
  | '\n' :: '\r' :: r => r.reverse
  | '\n' :: r => r.reverse
  | _ => cs

def splitOnComma : List Char → List (List Char)
  | [] => [[]]
  | c :: cs =>
    if c == ',' then [] :: splitOnComma cs
    else
      match splitOnComma cs with
      | [] => [[c]]
      | f :: rest => (c :: f) :: rest

def splitCsvLine (l : String) : List String :=
  match dropEol l.data with
  | [] => []
  | cs => (splitOnComma cs).map String.mk

def csvRows (lines : List String) : List (List String) :=
  (lines.map splitCsvLine).filter (fun r => !r.isEmpty)

/-- One `csv.DictReader` row under
`FIELDNAMES = ['venue_id', 'ap_serial', 'port_id', 'vlan_id']`. -/
structure RawRow where
  venue_id : Option String
  ap_serial : Option String
  port_id : Option String
  vlan_id : Option String
deriving DecidableEq, Repr

def RawRow.ofFields (fs : List String) : RawRow :=
  ⟨fs[0]?, fs[1]?, fs[2]?, fs[3]?⟩

/-! ## Row processing (source lines 151-172) -/

structure PortConfigRequest where
  venue_id : String
  ap_serial : String
  port_id : Int
  vlan_id : Int
deriving DecidableEq, Repr

/-- Reason a row is skipped (caught and reported inside the row loop). -/
inductive SkipReason
  | parseError
  | missingIds
  | invalidVlan
deriving DecidableEq, Repr

/-- Exceptions the row loop does NOT catch: `except (KeyError, ValueError)`
covers neither `TypeError` (from `int(None)`) nor `AttributeError`
(from `None.strip()`). -/
inductive PyError
  | typeError
  | attributeError
deriving DecidableEq, Repr

inductive RowResult
  | valid (q : PortConfigRequest)
  | skip (reason : SkipReason)
  | crash (e : PyError)
deriving DecidableEq, Repr

/-- Lines 155-167 of the source, in statement order:
`row['venue_id'].strip()`, `row['ap_serial'].strip()`,
`int(row['port_id'])`, `int(row['vlan_id'])`, then the missing-identifier
check, then the VLAN range check. A `None` field value makes the strip
raise `AttributeError` or the `int` call raise `TypeError`, neither of
which the handler on line 170 catches. -/
def processRow (r : RawRow) : RowResult :=
  match r.venue_id with
  | none => .crash .attributeError
  | some v =>
    match r.ap_serial with
    | none => .crash .attributeError
    | some a =>
      match r.port_id with
      | none => .crash .typeError
      | some ps =>
        match pyParseInt ps with
        | none => .skip .parseError
        | some p =>
          match r.vlan_id with
          | none => .crash .typeError
          | some vs =>
            match pyParseInt vs with
            | none => .skip .parseError
            | some n =>
              if pyStrip v = "" ∨ pyStrip a = "" then .skip .missingIds
              else if ¬(1 ≤ n ∧ n ≤ 4094) then .skip .invalidVlan
              else .valid ⟨pyStrip v, pyStrip a, p, n⟩

/-! ## configure_ap_port (source lines 44-83) -/

/-- The JSON body built on lines 55-60. -/
structure Payload where
  useVenueSettings : Bool
  enabled : Bool
  overwriteUntagId : Int
  overwriteVlanMembers : String
deriving DecidableEq, Repr

/-- The outgoing `requests.put` call: URL, bearer token, JSON body. -/
structure HttpPut where
  method : String
  url : String
  bearer : String
  payload : Payload
deriving DecidableEq, Repr

/-- URL and payload construction of `configure_ap_port`
(f-strings interpolate `str()` of each value; `str` of a Python int is
its decimal representation, as is `toString` of a Lean `Int`). -/
def buildPortRequest (tok : String) (q : PortConfigRequest) : HttpPut :=
  { method := "PUT"
  , url := "https://api.ruckus.cloud/venues/" ++ q.venue_id ++ "/aps/" ++ q.ap_serial
      ++ "/lanPorts/" ++ toString q.port_id ++ "/settings"
  , bearer := tok
  , payload :=
    { useVenueSettings := false
    , enabled := true
    , overwriteUntagId := q.vlan_id
    , overwriteVlanMembers := toString q.vlan_id } }

/-- Response of the configuration PUT as seen at the `requests` boundary. -/
inductive ConfigHttp
  | transportError
  | response (status : Nat)
deriving DecidableEq, Repr

inductive ConfigResult
  | success
  | failure
deriving DecidableEq, Repr

/-- Outcome of `configure_ap_port`: `raise_for_status` raises exactly for
statuses in [400,600), a transport error raises `RequestException`; both
are caught by the handler on line 78, so the function never raises and the
row is reported as failed. Any other status (below 400 or at or above 600)
does not raise and line 77 reports the port as configured. -/
def configure_ap_port_result : ConfigHttp → ConfigResult
  | .transportError => .failure
  | .response s => if 400 ≤ s ∧ s < 600 then .failure else .success

/-! ## get_bearer_token (source lines 16-42) -/

inductive AuthBody
  | notJson
  | json (access_token : Option String)
deriving DecidableEq, Repr

inductive AuthHttp
  | transportError
  | response (status : Nat) (body : AuthBody)
deriving DecidableEq, Repr

inductive AuthOutcome
  | fatal
  | token (t : String)
deriving DecidableEq, Repr

/-- `get_bearer_token`: a transport error or a status in exactly [400,600)
(`raise_for_status`) is a caught `RequestException` and exits; a body that
is not JSON makes `response.json()` raise (fatal either way); a missing or
falsy (empty) `access_token` exits; otherwise the token is returned. -/
def get_bearer_token : AuthHttp → AuthOutcome
  | .transportError => .fatal
  | .response status body =>
    if 400 ≤ status ∧ status < 600 then .fatal
    else
      match body with
      | .notJson => .fatal
      | .json tok =>
        match tok with
        | none => .fatal
        | some t => if t = "" then .fatal else .token t

/-! ## The batch loop over rows (source lines 151-172) -/

inductive RowEvent
  | skipped (reason : SkipReason)
  | configured (req : HttpPut)
  | configFailed (req : HttpPut)
  | crashed (e : PyError)
deriving DecidableEq, Repr

/-- The configuration PUTs actually issued, in order. -/
def requestsOf : List RowEvent → List HttpPut
  | [] => []
  | .configured r :: es => r :: requestsOf es
  | .configFailed r :: es => r :: requestsOf es
  | .skipped _ :: es => requestsOf es
  | .crashed _ :: es => requestsOf es

/-- Runs the row loop: each row is processed; a valid row issues exactly
one configuration PUT whose success or failure is recorded; a skip is
recorded and the loop continues; an uncaught exception (`crash`) stops the
loop (the outer handler on lines 177-180 catches it outside the loop).
Returns the events and whether the batch aborted. -/
def runRows (tok : String) (orc : HttpPut → ConfigHttp) :
    List RawRow → List RowEvent × Bool
  | [] => ([], false)
  | r :: rest =>
    match processRow r with
    | .crash e => ([.crashed e], true)
    | .skip reason =>
      let p := runRows tok orc rest
      (.skipped reason :: p.1, p.2)
    | .valid q =>
      let req := buildPortRequest tok q
      let p := runRows tok orc rest
      match configure_ap_port_result (orc req) with
      | .success => (.configured req :: p.1, p.2)
      | .failure => (.configFailed req :: p.1, p.2)

/-! ## Credentials and main (source lines 96-180) -/

structure Credentials where
  tenant_id : String
  client_id : String
  client_secret : String
deriving DecidableEq, Repr

/-- The abstract environment `main` runs in. -/
structure World where
  argc : Nat
  credsFile : Option (List String)
  promptTenant : String
  promptClient : String
  promptSecret : String
  authHttp : AuthHttp
  csvLines : Option (List String)
  configHttp : HttpPut → ConfigHttp

/-- Credential acquisition (lines 116-138): if the credentials file exists
its lines are each stripped and at least 3 lines are required (lines
120-127; emptiness of the lines is not checked); otherwise the three
prompted values must all be truthy (non-empty). -/
def credSource (w : World) : Except Unit Credentials :=
  match w.credsFile with
  | some ls =>
    let stripped := ls.map pyStrip
    if 3 ≤ stripped.length then
      .ok ⟨stripped.getD 0 "", stripped.getD 1 "", stripped.getD 2 ""⟩
    else .error ()
  | none =>
    if w.promptTenant = "" ∨ w.promptClient = "" ∨ w.promptSecret = "" then .error ()
    else .ok ⟨w.promptTenant, w.promptClient, w.promptSecret⟩

/-- Observable outcome of one run of `main`. -/
structure MainResult where
  exitCode : Nat
  authAttempted : Bool
  csvOpened : Bool
  events : List RowEvent
deriving DecidableEq, Repr

/-- `main` (lines 96-180): arity check, credentials, authentication, CSV
open, then the row loop over `DictReader(skip_comments(f))`. `sys.exit`
with a message exits with code 1, as do the CSV handlers; an exception
escaping the row loop reaches the outer `except Exception` and exits 1;
otherwise the process ends with exit code 0. -/
def mainRun (w : World) : MainResult :=
  if w.argc ≠ 2 then ⟨1, false, false, []⟩
  else
    match credSource w with
    | .error _ => ⟨1, false, false, []⟩
    | .ok _ =>
      match get_bearer_token w.authHttp with
      | .fatal => ⟨1, true, false, []⟩
      | .token tok =>
        match w.csvLines with
        | none => ⟨1, true, false, []⟩
        | some lines =>
          let rows := (csvRows (skipComments lines)).map RawRow.ofFields
          let p := runRows tok w.configHttp rows
          ⟨if p.2 then 1 else 0, true, true, p.1⟩

/-- A world whose credentials file holds three empty lines; authentication
is set to fail by transport error so the run stops right after the token
request. -/
def wCreds : World :=
  { argc := 2, credsFile := some ["", "", ""], promptTenant := "", promptClient := ""
  , promptSecret := "", authHttp := .transportError, csvLines := none
  , configHttp := fun _ => .response 200 }

/-- A world whose credentials file has only two lines. -/
def wShort : World :=
  { argc := 2, credsFile := some ["t", "c"], promptTenant := "", promptClient := ""
  , promptSecret := "", authHttp := .transportError, csvLines := none
  , configHttp := fun _ => .response 200 }

/-- A world with good credentials and a successful authentication whose CSV
holds a single three-field data row (its `vlan_id` is missing). -/
def wRowCrash : World :=
  { argc := 2, credsFile := some ["t", "c", "s"], promptTenant := "", promptClient := ""
  , promptSecret := "", authHttp := .response 200 (.json (some "tok"))
  , csvLines := some ["V1,AP1,1\n"], configHttp := fun _ => .response 200 }

/-! ## Helper lemmas -/

theorem processRow_ofFields (v a ps vs : String) :
    processRow (RawRow.ofFields [v, a, ps, vs]) =
      (match pyParseInt ps with
      | none => .skip .parseError
      | some p =>
        match pyParseInt vs with
        | none => .skip .parseError
        | some n =>
          if pyStrip v = "" ∨ pyStrip a = "" then .skip .missingIds
          else if ¬(1 ≤ n ∧ n ≤ 4094) then .skip .invalidVlan
          else .valid ⟨pyStrip v, pyStrip a, p, n⟩) := rfl

theorem runRows_cons_skip (tok : String) (orc : HttpPut → ConfigHttp)
    (r : RawRow) (rest : List RawRow) (reason : SkipReason)
    (h : processRow r = .skip reason) :
    runRows tok orc (r :: rest) =
      (.skipped reason :: (runRows tok orc rest).1, (runRows tok orc rest).2) := by
  simp [runRows, h]

theorem requestsOf_runRows_cons_valid (tok : String) (orc : HttpPut → ConfigHttp)
    (r : RawRow) (rest : List RawRow) (q : PortConfigRequest)
    (h : processRow r = .valid q) :
    requestsOf (runRows tok orc (r :: rest)).1
      = buildPortRequest tok q :: requestsOf (runRows tok orc rest).1 := by
  cases hc : configure_ap_port_result (orc (buildPortRequest tok q)) <;>
    simp [runRows, h, hc, requestsOf]

theorem skipComments_eq_dropWhile (ls : List String) :
    skipComments ls = ls.dropWhile isCommentLine := by
  induction ls with
  | nil => rfl
  | cons l rest ih =>
    by_cases hc : isCommentLine l
    · simp [skipComments, List.dropWhile, hc, ih]
    · simp [skipComments, List.dropWhile, hc]

theorem skipComments_head_not_comment (ls : List String) :
    ∀ h t, skipComments ls = h :: t → isCommentLine h = false := by
  induction ls with
  | nil => intro h t he; exact absurd he (by simp [skipComments])
  | cons l rest ih =>
    intro h t he
    by_cases hc : isCommentLine l
    · exact ih h t (by simpa [skipComments, hc] using he)
    · rw [skipComments] at he
      simp only [hc, if_false] at he
      cases he
      simpa using hc

example : pyParseInt "10" = some 10 := by decide
example : pyParseInt " -3 " = some (-3) := by decide
example : pyParseInt "4_0" = some 40 := by decide
example : pyParseInt "x" = none := by decide
example : pyParseInt "" = none := by decide
example : pyParseInt "1_" = none := by decide
example : pyStrip "  a b " = "a b" := by decide
example : isCommentLine "  # x" = true := by decide
example : isCommentLine "a # x" = false := by decide
example : skipComments ["#h", "a", "#b"] = ["a", "#b"] := by decide
example : splitCsvLine "V1,AP1,1,10\n" = ["V1", "AP1", "1", "10"] := by decide
example : splitCsvLine "\n" = [] := by decide
example :
    processRow (RawRow.ofFields ["V1", "AP1", "1", "10"]) =
      .valid ⟨"V1", "AP1", 1, 10⟩ := by decide
example :
    processRow (RawRow.ofFields ["V1", "AP1", "1"]) = .crash .typeError := by decide
example :
    processRow (RawRow.ofFields ["V1", "AP1", "x", "10"]) = .skip .parseError := by
  decide
example :
    processRow (RawRow.ofFields [" ", "AP1", "1", "10"]) = .skip .missingIds := by
  decide
example :
    processRow (RawRow.ofFields ["V1", "AP1", "1", "5000"]) = .skip .invalidVlan := by
  decide

/-! ## Claims -/

/-- Claim C1: for every CSV row with all four fields present, validation is
applied in this exact order: first `port_id` and `vlan_id` are parsed as
integers (parse failure skips with a parse-error reason, regardless of the
later checks), then an empty trimmed `venue_id` or `ap_serial` skips with
the missing-identifier reason (regardless of the VLAN range), then a
`vlan_id` outside [1,4094] skips with the invalid-VLAN reason; otherwise
the row is a valid request built from the trimmed identifiers and the
parsed integers. -/
theorem row_validation_order (v a ps vs : String) :
    (pyParseInt ps = none ∨ pyParseInt vs = none →
      processRow (RawRow.ofFields [v, a, ps, vs]) = .skip .parseError)
  ∧ (∀ p n, pyParseInt ps = some p → pyParseInt vs = some n →
      (pyStrip v = "" ∨ pyStrip a = "") →
      processRow (RawRow.ofFields [v, a, ps, vs]) = .skip .missingIds)
  ∧ (∀ p n, pyParseInt ps = some p → pyParseInt vs = some n →
      pyStrip v ≠ "" → pyStrip a ≠ "" → ¬(1 ≤ n ∧ n ≤ 4094) →
      processRow (RawRow.ofFields [v, a, ps, vs]) = .skip .invalidVlan)
  ∧ (∀ p n, pyParseInt ps = some p → pyParseInt vs = some n →
      pyStrip v ≠ "" → pyStrip a ≠ "" → 1 ≤ n → n ≤ 4094 →
      processRow (RawRow.ofFields [v, a, ps, vs])
        = .valid ⟨pyStrip v, pyStrip a, p, n⟩) := by
  refine ⟨?_, ?_, ?_, ?_⟩
  · rintro (h | h)
    · rw [processRow_ofFields, h]
    · rcases hps : pyParseInt ps with _ | p
      · rw [processRow_ofFields, hps]
      · rw [processRow_ofFields, hps, h]
  · intro p n hp hn hempty
    rw [processRow_ofFields, hp, hn]
    simp [hempty]
  · intro p n hp hn hv ha hout
    rw [processRow_ofFields, hp, hn]
    simp [hv, ha, hout]
  · intro p n hp hn hv ha h1 h2
    rw [processRow_ofFields, hp, hn]
    simp [hv, ha, h1, h2]

/-- Witness for C1 at a concrete row: a non-numeric `port_id` skips with
the parse-error reason. -/
theorem row_validation_order_witness :
    processRow (RawRow.ofFields ["V1", "AP100", "x", "10"]) = .skip .parseError :=
  (row_validation_order "V1" "AP100" "x" "10").1 (Or.inl (by decide))

/-- Claim C5: `skip_comments` discards exactly the leading run of lines
whose left-stripped text starts with `'#'`, yields every remaining line
unchanged and in order (the input is the discarded comment run followed by
the output), and the first yielded line is never a comment line — while
later lines are yielded even when they start with `'#'` (they are in the
`dropWhile` tail verbatim). -/
theorem skip_comments_spec (ls : List String) :
    skipComments ls = ls.dropWhile isCommentLine
  ∧ ls.takeWhile isCommentLine ++ skipComments ls = ls
  ∧ (∀ l ∈ ls.takeWhile isCommentLine, isCommentLine l = true)
  ∧ (∀ h t, skipComments ls = h :: t → isCommentLine h = false) := by
  refine ⟨skipComments_eq_dropWhile ls, ?_, ?_, skipComments_head_not_comment ls⟩
  · rw [skipComments_eq_dropWhile]
    exact List.takeWhile_append_dropWhile isCommentLine ls
  · intro l hl
    exact List.mem_takeWhile_imp hl

/-- Witness for C5 at a concrete input: the leading comment line is
dropped, the rest (including a later line starting with `'#'`) is kept. -/
theorem skip_comments_spec_witness :
    skipComments ["#header", "V1,AP100,1,10", "#tail"]
      = ["V1,AP100,1,10", "#tail"] :=
  (skip_comments_spec ["#header", "V1,AP100,1,10", "#tail"]).1.trans (by decide)

/-- Claim C2: any row (all four fields present) whose `vlan_id` parses to
an integer outside [1,4094] is skipped — for some reason, the VLAN one or
an earlier one in the validation order — and contributes no configuration
PUT to the batch. -/
theorem vlan_out_of_range_skipped (v a ps vs : String) (n : Int)
    (hn : pyParseInt vs = some n) (hout : ¬(1 ≤ n ∧ n ≤ 4094)) :
    (∃ reason, processRow (RawRow.ofFields [v, a, ps, vs]) = .skip reason)
  ∧ ∀ tok orc rest,
      requestsOf (runRows tok orc (RawRow.ofFields [v, a, ps, vs] :: rest)).1
        = requestsOf (runRows tok orc rest).1 := by
  have hskip : ∃ reason, processRow (RawRow.ofFields [v, a, ps, vs]) = .skip reason := by
    rcases hps : pyParseInt ps with _ | p
    · exact ⟨.parseError, (row_validation_order v a ps vs).1 (Or.inl hps)⟩
    · by_cases hempty : pyStrip v = "" ∨ pyStrip a = ""
      · exact ⟨.missingIds, by rw [processRow_ofFields, hps, hn]; simp [hempty]⟩
      · refine ⟨.invalidVlan, ?_⟩
        rw [processRow_ofFields, hps, hn]
        push_neg at hempty
        simp [hempty.1, hempty.2, hout]
  refine ⟨hskip, ?_⟩
  obtain ⟨reason, hr⟩ := hskip
  intro tok orc rest
  rw [runRows_cons_skip tok orc _ rest reason hr]
  simp [requestsOf]

/-- Claim C6: a valid row issues exactly one bearer-authenticated HTTP PUT
to `/venues/{venue_id}/aps/{ap_serial}/lanPorts/{port_id}/settings` (on the
API host) whose JSON body is exactly
`useVenueSettings = false`, `enabled = true`,
`overwriteUntagId = vlan_id` (integer) and
`overwriteVlanMembers` the decimal string of `vlan_id`. -/
theorem valid_row_exactly_one_put (tok v a ps vs : String) (p n : Int)
    (orc : HttpPut → ConfigHttp) (rest : List RawRow)
    (hp : pyParseInt ps = some p) (hn : pyParseInt vs = some n)
    (hv : pyStrip v ≠ "") (ha : pyStrip a ≠ "") (h1 : 1 ≤ n) (h2 : n ≤ 4094) :
    requestsOf (runRows tok orc (RawRow.ofFields [v, a, ps, vs] :: rest)).1
      = buildPortRequest tok ⟨pyStrip v, pyStrip a, p, n⟩
          :: requestsOf (runRows tok orc rest).1
  ∧ buildPortRequest tok ⟨pyStrip v, pyStrip a, p, n⟩
      = { method := "PUT"
        , url := "https://api.ruckus.cloud/venues/" ++ pyStrip v ++ "/aps/"
            ++ pyStrip a ++ "/lanPorts/" ++ toString p ++ "/settings"
        , bearer := tok
        , payload :=
          { useVenueSettings := false
          , enabled := true
          , overwriteUntagId := n
          , overwriteVlanMembers := toString n } } := by
  have hval := (row_validation_order v a ps vs).2.2.2 p n hp hn hv ha h1 h2
  exact ⟨requestsOf_runRows_cons_valid tok orc _ rest _ hval, rfl⟩

/-- Witness for C6: the spec's scenario row `V1,AP100,1,10` issues exactly
the stated PUT. -/
theorem valid_row_exactly_one_put_witness :
    requestsOf (runRows "tok" (fun _ => ConfigHttp.response 200)
        [RawRow.ofFields ["V1", "AP100", "1", "10"]]).1
      = [{ method := "PUT"
         , url := "https://api.ruckus.cloud/venues/V1/aps/AP100/lanPorts/1/settings"
         , bearer := "tok"
         , payload :=
           { useVenueSettings := false
           , enabled := true
           , overwriteUntagId := 10
           , overwriteVlanMembers := "10" } }] := by
  have h := valid_row_exactly_one_put "tok" "V1" "AP100" "1" "10" 1 10
    (fun _ => ConfigHttp.response 200) [] (by decide) (by decide) (by decide)
    (by decide) (by decide) (by decide)
  rw [h.1, h.2]
  decide

/-- Claim C10: `port_id` undergoes no range validation: for any integer it
parses to — zero, negative, or arbitrarily large — a row that is otherwise
valid becomes a valid request carrying that integer, exactly one PUT is
issued for it, and the request path interpolates that integer verbatim. -/
theorem port_id_unvalidated (tok v a ps vs : String) (p n : Int)
    (orc : HttpPut → ConfigHttp) (rest : List RawRow)
    (hp : pyParseInt ps = some p) (hn : pyParseInt vs = some n)
    (hv : pyStrip v ≠ "") (ha : pyStrip a ≠ "") (h1 : 1 ≤ n) (h2 : n ≤ 4094) :
    processRow (RawRow.ofFields [v, a, ps, vs])
      = .valid ⟨pyStrip v, pyStrip a, p, n⟩
  ∧ requestsOf (runRows tok orc (RawRow.ofFields [v, a, ps, vs] :: rest)).1
      = buildPortRequest tok ⟨pyStrip v, pyStrip a, p, n⟩
          :: requestsOf (runRows tok orc rest).1
  ∧ (buildPortRequest tok ⟨pyStrip v, pyStrip a, p, n⟩).url
      = "https://api.ruckus.cloud/venues/" ++ pyStrip v ++ "/aps/" ++ pyStrip a
          ++ "/lanPorts/" ++ toString p ++ "/settings" := by
  have hval := (row_validation_order v a ps vs).2.2.2 p n hp hn hv ha h1 h2
  exact ⟨hval, requestsOf_runRows_cons_valid tok orc _ rest _ hval, rfl⟩

/-- Witness for C10: `port_id = -3` is accepted and lands verbatim in the
request path. -/
theorem port_id_unvalidated_witness :
    processRow (RawRow.ofFields ["V1", "AP100", "-3", "10"])
      = .valid ⟨"V1", "AP100", -3, 10⟩
  ∧ (buildPortRequest "tok" ⟨"V1", "AP100", -3, 10⟩).url
      = "https://api.ruckus.cloud/venues/V1/aps/AP100/lanPorts/-3/settings" := by
  have h := port_id_unvalidated "tok" "V1" "AP100" "-3" "10" (-3) 10
    (fun _ => ConfigHttp.response 200) [] (by decide) (by decide) (by decide)
    (by decide) (by decide) (by decide)
  exact ⟨h.1, h.2.2.trans (by decide)⟩

/-- Claim C7 counterexample: a 302 response to the configuration PUT is
not 2xx, yet it is not treated as a failure — `raise_for_status` does not
raise below 400, so line 77 reports the port as configured — contradicting
the claim that every non-2xx response is reported and logged as failed. -/
theorem config_302_reported_success_ce :
    configure_ap_port_result (.response 302) = .success
  ∧ ¬(200 ≤ 302 ∧ 302 < 300) := by decide

/-- Claim C7 (amended): when the configuration request of a valid row
fails — a transport error, or a status in [400,600) such as HTTP 500, the
exact cases `configure_ap_port` treats as failure — nothing raises out of
the configurator: the row's event is a recorded failure, the remaining
rows are processed exactly as they would have been, the batch's abort flag
is unchanged, and if the rest of the batch does not abort the exit-code
contribution stays 0. (Non-2xx statuses outside [400,600), such as 302,
are instead reported as configured; see the counterexample.) -/
theorem config_failure_isolated (tok : String) (orc : HttpPut → ConfigHttp)
    (r : RawRow) (rest : List RawRow) (q : PortConfigRequest)
    (h1 : processRow r = .valid q)
    (h2 : configure_ap_port_result (orc (buildPortRequest tok q)) = .failure) :
    runRows tok orc (r :: rest)
      = (.configFailed (buildPortRequest tok q) :: (runRows tok orc rest).1,
         (runRows tok orc rest).2)
  ∧ ((runRows tok orc rest).2 = false →
      (if (runRows tok orc (r :: rest)).2 then 1 else 0) = 0) := by
  have hrun : runRows tok orc (r :: rest)
      = (.configFailed (buildPortRequest tok q) :: (runRows tok orc rest).1,
         (runRows tok orc rest).2) := by
    simp [runRows, h1, h2]
  refine ⟨hrun, ?_⟩
  intro hab
  rw [hrun]
  simp [hab]

/-- Witness for C7: an HTTP 500 on the configuration request of the row
`V1,AP100,1,10` records a failure and leaves the rest of the (empty) batch
with exit-code contribution 0. -/
theorem config_failure_isolated_witness :
    runRows "tok" (fun _ => ConfigHttp.response 500)
        [RawRow.ofFields ["V1", "AP100", "1", "10"]]
      = ([.configFailed (buildPortRequest "tok" ⟨"V1", "AP100", 1, 10⟩)], false) := by
  have h := config_failure_isolated "tok" (fun _ => ConfigHttp.response 500)
    (RawRow.ofFields ["V1", "AP100", "1", "10"]) [] ⟨"V1", "AP100", 1, 10⟩
    (by decide) (by decide)
  rw [h.1]
  decide

/-- Claim C3 (code bug): a raw record with a missing field escapes the
row-level handler — `except (KeyError, ValueError)` does not catch the
`TypeError` that `int(None)` raises — so the batch aborts: the three-field
row `V1,AP1,1` crashes and the following good row is never processed. -/
theorem missing_field_row_aborts_batch :
    processRow (RawRow.ofFields ["V1", "AP1", "1"]) = .crash .typeError
  ∧ runRows "tok" (fun _ => ConfigHttp.response 200)
      [RawRow.ofFields ["V1", "AP1", "1"], RawRow.ofFields ["V2", "AP2", "2", "20"]]
      = ([.crashed .typeError], true) := by
  exact ⟨by decide, by decide⟩

/-- Claim C4 counterexample: a 302 response whose JSON body carries an
`access_token` makes `get_bearer_token` return the token even though the
status is not 2xx — `raise_for_status` only raises for statuses at or
above 400 — contradicting "returns the token only from a successful (2xx)
response, else fails fatally". -/
theorem auth_redirect_status_returns_token_ce :
    get_bearer_token (.response 302 (.json (some "tok"))) = .token "tok"
  ∧ ¬(200 ≤ 302 ∧ 302 < 300) := by decide

/-- Claim C4 (amended): authentication fails fatally on a transport error,
on any status in [400,600) (the exact range `raise_for_status` raises
for), on a non-JSON body, and on a missing or empty `access_token`; for
any other status with a non-empty token in the JSON body it returns that
token; and whenever authentication is fatal the run ends with exit code 1
before any CSV row is processed. -/
theorem auth_amended :
    get_bearer_token .transportError = .fatal
  ∧ (∀ s b, 400 ≤ s → s < 600 → get_bearer_token (.response s b) = .fatal)
  ∧ (∀ s, ¬(400 ≤ s ∧ s < 600) →
      get_bearer_token (.response s .notJson) = .fatal)
  ∧ (∀ s, ¬(400 ≤ s ∧ s < 600) →
      get_bearer_token (.response s (.json none)) = .fatal)
  ∧ (∀ s, ¬(400 ≤ s ∧ s < 600) →
      get_bearer_token (.response s (.json (some ""))) = .fatal)
  ∧ (∀ s t, ¬(400 ≤ s ∧ s < 600) → t ≠ "" →
      get_bearer_token (.response s (.json (some t))) = .token t)
  ∧ (∀ w : World, get_bearer_token w.authHttp = .fatal →
      (mainRun w).events = [] ∧ (mainRun w).exitCode = 1) := by
  refine ⟨rfl, ?_, ?_, ?_, ?_, ?_, ?_⟩
  · intro s b hs hs2
    simp [get_bearer_token, hs, hs2]
  · intro s hs
    simp [get_bearer_token, hs]
  · intro s hs
    simp [get_bearer_token, hs]
  · intro s hs
    simp [get_bearer_token, hs]
  · intro s t hs ht
    simp [get_bearer_token, hs, ht]
  · intro w h
    unfold mainRun
    split
    · exact ⟨rfl, rfl⟩
    · rcases hcs : credSource w with u | c
      · exact ⟨rfl, rfl⟩
      · rw [h]
        exact ⟨rfl, rfl⟩

/-- Witness for C4 (amended) at concrete inputs: status 500 is fatal,
status 600 with a token returns the token, and in a world whose auth
transport fails no row event is produced and the exit code is 1. -/
theorem auth_amended_witness :
    get_bearer_token (.response 500 (.json (some "t"))) = .fatal
  ∧ get_bearer_token (.response 600 (.json (some "t"))) = .token "t"
  ∧ (mainRun wCreds).events = [] ∧ (mainRun wCreds).exitCode = 1 :=
  ⟨auth_amended.2.1 500 (.json (some "t")) (by decide) (by decide),
   auth_amended.2.2.2.2.2.1 600 "t" (by decide) (by decide),
   auth_amended.2.2.2.2.2.2 wCreds (by decide)⟩

/-- Claim C8 counterexample: a credentials file of three empty lines has
fewer than 3 non-empty lines, yet the run does not exit before HTTP — the
authentication request is attempted (the length check on line 121 counts
lines, not non-empty lines). -/
theorem creds_empty_lines_ce :
    wCreds.credsFile = some ["", "", ""]
  ∧ (mainRun wCreds).authAttempted = true := by decide

/-- Claim C8 (amended): with a credentials file present, fewer than 3 lines
(empty or not, each stripped) is a fatal error before any HTTP call — exit
code 1, no authentication attempt, no row processed; with at least 3 lines
the first three stripped lines become tenant_id, client_id and
client_secret in that order. -/
theorem creds_amended (w : World) (L : List String)
    (h1 : w.argc = 2) (h2 : w.credsFile = some L) :
    (L.length < 3 →
      (mainRun w).exitCode = 1 ∧ (mainRun w).authAttempted = false
        ∧ (mainRun w).events = [])
  ∧ (3 ≤ L.length →
      credSource w = .ok ⟨pyStrip (L.getD 0 ""), pyStrip (L.getD 1 ""),
        pyStrip (L.getD 2 "")⟩) := by
  constructor
  · intro hlen
    have hcs : credSource w = .error () := by
      simp only [credSource, h2]
      rw [if_neg]
      simp only [List.length_map]
      omega
    unfold mainRun
    rw [if_neg (by omega), hcs]
    exact ⟨rfl, rfl, rfl⟩
  · intro hlen
    rcases L with _ | ⟨x, _ | ⟨y, _ | ⟨z, r⟩⟩⟩
    · simp at hlen
    · simp at hlen
    · simp at hlen
    · simp [credSource, h2]

/-- Witness for C8 (amended): a two-line credentials file exits with code 1
without attempting authentication. -/
theorem creds_amended_witness :
    (mainRun wShort).exitCode = 1 ∧ (mainRun wShort).authAttempted = false :=
  ⟨((creds_amended wShort ["t", "c"] rfl rfl).1 (by decide)).1,
   ((creds_amended wShort ["t", "c"] rfl rfl).1 (by decide)).2.1⟩

/-- Claim C9 (code bug): in a run with correct arity, good credentials,
successful authentication and a CSV that opens fine, a single three-field
row makes the process exit with code 1 — the uncaught `TypeError` from the
row reaches the outer handler — although the claim requires exit code 0
when the CSV opened and only per-row failures occurred. -/
theorem row_crash_exit_code_one :
    (mainRun wRowCrash).csvOpened = true ∧ (mainRun wRowCrash).exitCode = 1 := by
  decide

/-- Witness for C2: the spec's scenario row `V2,AP200,2,5000` (VLAN 5000)
is skipped and the batch issues no PUT. -/
theorem vlan_out_of_range_skipped_witness :
    (∃ reason, processRow (RawRow.ofFields ["V2", "AP200", "2", "5000"]) = .skip reason)
  ∧ requestsOf (runRows "tok" (fun _ => ConfigHttp.response 200)
      [RawRow.ofFields ["V2", "AP200", "2", "5000"]]).1 = [] := by
  have h := vlan_out_of_range_skipped "V2" "AP200" "2" "5000" 5000 (by decide) (by decide)
  exact ⟨h.1, (h.2 "tok" (fun _ => ConfigHttp.response 200) []).trans (by decide)⟩
